import Mathlib

/-!
Verification of the Quantum Trading System stub (`src/Trading_Bot.py`)
against its natural-language specification.

The Python source is shallowly embedded: a raised Python exception becomes
an `Except` error value, and methods that could mutate their object are
modelled by explicit state passing.  Numeric code appears at two levels:
`AdaptiveKelly.calculate` idealises the program's doubles as exact
rationals and serves the properties whose content does not depend on
rounding, while `AdaptiveKelly.calculateFP` models the program's IEEE-754
binary64 arithmetic (round to nearest, ties to even) and serves the
properties that are sensitive to it.
-/

set_option maxHeartbeats 1000000
set_option maxRecDepth 100000

/-- Python exceptions that the embedded code can raise. -/
inductive PyError where
  | zeroDivisionError
  | connectionError
  | attributeError
  deriving DecidableEq, Repr

/- ======================
   RISK MANAGEMENT  (class AdaptiveKelly, Trading_Bot.py lines 90-103)
   ====================== -/

/-- The class attribute `AdaptiveKelly.RISK_PROFILES`, a dict from profile
name to risk multiplier (lines 92-96). -/
def RISK_PROFILES : List (String × ℚ) :=
  [("conservative", 1/4), ("moderate", 1/2), ("aggressive", 1)]

/-- Python `dict.get(key, default)` on an association list: the value at
the first matching key, else the default. -/
def dictGet : List (String × ℚ) → String → ℚ → ℚ
  | [], _, dflt => dflt
  | kv :: rest, key, dflt => if kv.1 = key then kv.2 else dictGet rest key dflt

/-- The state of an `AdaptiveKelly` object: its only attribute is
`self.multiplier`, set in `__init__` (line 99). -/
structure AdaptiveKelly where
  multiplier : ℚ
  deriving DecidableEq, Repr

/-- `AdaptiveKelly.__init__(self, profile="moderate")` (lines 98-99):
`self.multiplier = self.RISK_PROFILES.get(profile, 0.5)`.  Construction
always succeeds; an unknown profile falls back to the default 0.5. -/
def AdaptiveKelly.init (profile : String) : AdaptiveKelly :=
  { multiplier := dictGet RISK_PROFILES profile (1/2) }

/-- `AdaptiveKelly.calculate(self, win_prob, win_loss_ratio)`
(lines 101-103):

    raw_kelly = (win_prob * (win_loss_ratio + 1) - 1) / win_loss_ratio
    return max(0.01, raw_kelly * self.multiplier)

The method reads `self.multiplier` and assigns nothing, so the returned
state is the incoming one.  In Python a float division by zero raises
`ZeroDivisionError`; any other input flows straight through the formula
with no validation.

This definition is the exact-rational idealisation of the method; the
rounding-faithful IEEE model is `AdaptiveKelly.calculateFP` below. -/
def AdaptiveKelly.calculate (self : AdaptiveKelly) (win_prob wl : ℚ) :
    Except PyError ℚ × AdaptiveKelly :=
  if wl = 0 then
    (Except.error PyError.zeroDivisionError, self)
  else
    (Except.ok (max (1/100) ((win_prob * (wl + 1) - 1) / wl * self.multiplier)), self)

/- ======================
   IEEE-754 binary64 model of the sizing arithmetic
   ====================== -/

/-- A finite IEEE-754 binary64 value, written as an integer significand
times a power of two: the value is `m * 2^e`.  Every finite double is of
this form; the model covers the normal range (no overflow, infinities or
NaNs arise in any computation verified here). -/
structure F64 where
  m : ℤ
  e : ℤ
  deriving DecidableEq, Repr

/-- The rational value denoted by a binary64 datum. -/
def F64.toRat (a : F64) : ℚ := (a.m : ℚ) * (2:ℚ) ^ a.e

/-- Number of binary digits of `n` (0 for 0), by fuelled recursion so that
it evaluates by kernel reduction. -/
def bitlenAux : ℕ → ℕ → ℕ
  | 0, _ => 0
  | fuel+1, n => if n = 0 then 0 else bitlenAux fuel (n / 2) + 1

def bitlen (n : ℕ) : ℕ := bitlenAux n n

/-- Round the nonnegative rational `nn / dd` (with `dd > 0`) to the nearest
integer, ties to even. -/
def roundNearestEven (nn dd : ℕ) : ℕ :=
  let q := nn / dd
  let r := nn % dd
  if 2 * r < dd then q
  else if dd < 2 * r then q + 1
  else if q % 2 = 0 then q else q + 1

/-- Round the positive rational `n / d` to 53 significant bits (IEEE
binary64 round-to-nearest, ties to even): scale into `[2^52, 2^54)`, then
round at the correct binade. -/
def roundPos (n d : ℕ) : ℕ × ℤ :=
  let e1 : ℤ := (bitlen n : ℤ) - (bitlen d : ℤ) - 53
  let N := if 0 ≤ e1 then n else n * 2 ^ (-e1).toNat
  let D := if 0 ≤ e1 then d * 2 ^ e1.toNat else d
  if N / D < 2 ^ 53 then (roundNearestEven N D, e1)
  else (roundNearestEven N (2 * D), e1 + 1)

/-- Round the rational `n / d` (with `d > 0`) to a binary64 value.
Rounding is sign-symmetric. -/
def roundF64 (n : ℤ) (d : ℕ) : F64 :=
  if n = 0 then ⟨0, 0⟩
  else if 0 < n then
    let p := roundPos n.toNat d
    ⟨(p.1 : ℤ), p.2⟩
  else
    let p := roundPos (-n).toNat d
    ⟨-(p.1 : ℤ), p.2⟩

/-- Round the dyadic rational `n * 2^e` to a binary64 value. -/
def roundDyadic (n : ℤ) (e : ℤ) : F64 :=
  if 0 ≤ e then roundF64 (n * 2 ^ e.toNat) 1 else roundF64 n (2 ^ (-e).toNat)

/-- IEEE binary64 addition: round the exact sum. -/
def F64.add (a b : F64) : F64 :=
  roundDyadic (a.m * 2 ^ (a.e - min a.e b.e).toNat + b.m * 2 ^ (b.e - min a.e b.e).toNat)
    (min a.e b.e)

/-- IEEE binary64 subtraction: round the exact difference. -/
def F64.sub (a b : F64) : F64 := F64.add a ⟨-b.m, b.e⟩

/-- IEEE binary64 multiplication: round the exact product. -/
def F64.mul (a b : F64) : F64 := roundDyadic (a.m * b.m) (a.e + b.e)

/-- IEEE binary64 division (for a nonzero divisor): round the exact
quotient.  A zero divisor never reaches this function: the embedded Python
raises `ZeroDivisionError` before dividing. -/
def F64.div (a b : F64) : F64 :=
  let e := a.e - b.e
  let n := if 0 ≤ e then a.m * 2 ^ e.toNat else a.m
  let d := if 0 ≤ e then b.m else b.m * 2 ^ (-e).toNat
  if 0 ≤ d then roundF64 n d.toNat else roundF64 (-n) (-d).toNat

/-- Exact comparison of two binary64 values (float comparison is exact). -/
def F64.lt (a b : F64) : Bool :=
  decide (a.m * 2 ^ (a.e - min a.e b.e).toNat < b.m * 2 ^ (b.e - min a.e b.e).toNat)

/-- Python `max(a, b)`: returns `b` when `a < b`, else the first argument. -/
def F64.pymax (a b : F64) : F64 := if F64.lt a b then b else a

/-- The double literal `0.01` of line 103: the binary64 value nearest
1/100, namely `5764607523034235 * 2^-59` (slightly above 1/100). -/
def float001 : F64 := ⟨5764607523034235, -59⟩

/-- `AdaptiveKelly.calculate` (lines 101-103) under the program's actual
IEEE-754 binary64 arithmetic.  Same code path as the rational
idealisation — `(win_prob * (wl + 1) - 1) / wl * multiplier`, then
`max(0.01, ·)` — but every intermediate operation rounds to binary64, in
the evaluation order of the Python expression.  The preset multipliers
0.25, 0.5 and 1.0 are exactly representable (`⟨1,-2⟩`, `⟨1,-1⟩`,
`⟨1,0⟩`). -/
def AdaptiveKelly.calculateFP (mult win_prob wl : F64) : Except PyError F64 :=
  if wl.m = 0 then Except.error PyError.zeroDivisionError
  else
    Except.ok (F64.pymax float001
      (F64.mul (F64.div (F64.sub (F64.mul win_prob (F64.add wl ⟨1, 0⟩)) ⟨1, 0⟩) wl) mult))

/- ======================
   FIX PROTOCOL HANDLER  (class FIXEngine, Trading_Bot.py lines 45-61)
   ====================== -/

/-- A FIX tag-value map (quickfix `FieldMap`): an association list from the
numeric tag to its string value. -/
abbrev FieldMap : Type := List (Nat × String)

/-- quickfix `getField(tag)`: the value stored at `tag`, if any. -/
def FieldMap.getField : FieldMap → Nat → Option String
  | [], _ => none
  | kv :: rest, tag => if kv.1 = tag then some kv.2 else FieldMap.getField rest tag

/-- quickfix `setField(tag, value)`: overwrite the entry at `tag`, or append
it when absent. -/
def FieldMap.setField (m : FieldMap) (tag : Nat) (value : String) : FieldMap :=
  match m with
  | [] => [(tag, value)]
  | kv :: rest =>
    if kv.1 = tag then (tag, value) :: rest
    else kv :: FieldMap.setField rest tag value

/-- A FIX message: a header field map (`message.getHeader()`) and a body
field map (`message.setField` writes here). -/
structure FIXMessage where
  header : FieldMap
  fields : FieldMap

/-- The attribute names defined on the class `FIXEngine` (lines 45-61):
exactly its five methods.  Its base class `Application` is the external
quickfix callback shim (`onCreate`/`onLogon`/... hooks); it defines no
`_encrypt` either, and no `_encrypt` exists anywhere in the repository. -/
def FIXEngine.classAttrs : List String :=
  ["__init__", "onCreate", "onLogon", "onLogout", "toAdmin"]

/-- The instance attribute names assigned by `FIXEngine.__init__`
(lines 47-51). -/
def FIXEngine.instanceAttrs : List String :=
  ["initiator"]

/-- Python attribute lookup `getattr(self, name)` on a `FIXEngine` object:
the instance dict, then the class dict, else `AttributeError`. -/
def FIXEngine.getattrSelf (name : String) : Except PyError Unit :=
  if name ∈ FIXEngine.instanceAttrs ∨ name ∈ FIXEngine.classAttrs then
    Except.ok ()
  else
    Except.error PyError.attributeError

/-- `FIXEngine.toAdmin(self, message, sessionID)` (lines 57-61):

    if message.getHeader().getField(35) == "A":
        message.setField(553, os.getenv("FIX_USERNAME"))
        message.setField(554, self._encrypt(os.getenv("FIX_PASSWORD")))

The environment values are external (`fixUsername`/`fixPassword`), but
`self._encrypt` is an attribute of the class itself, which is fully in the
source — so line 61 first resolves `_encrypt` on `self`, and only on
success would the resolved cipher produce the value for field 554 (the
`encrypt` parameter stands for that hypothetical cipher; the theorems show
the lookup always fails, so that branch is unreachable).  The returned
pair is (raised exception or unit, the message as the handler leaves it).
If `os` itself does not resolve (the module is never imported directly),
line 60 raises `NameError` even earlier and not even field 553 is set;
either way the handler raises and field 554 is never written. -/
def FIXEngine.toAdmin (encrypt : String → String) (fixUsername fixPassword : String)
    (message : FIXMessage) : Except PyError Unit × FIXMessage :=
  if message.header.getField 35 = some "A" then
    let msg1 : FIXMessage := ⟨message.header, message.fields.setField 553 fixUsername⟩
    match FIXEngine.getattrSelf "_encrypt" with
    | Except.error err => (Except.error err, msg1)
    | Except.ok _ =>
      (Except.ok (), ⟨msg1.header, msg1.fields.setField 554 (encrypt fixPassword)⟩)
  else
    (Except.ok (), message)

/- ======================
   MT5 BRIDGE  (class MT5Bridge, Trading_Bot.py lines 67-84)
   ====================== -/

/-- MetaTrader5 SDK constant `mt5.TRADE_ACTION_DEAL` (opaque external value;
only its identity matters to the claims). -/
def TRADE_ACTION_DEAL : Nat := 1

/-- MetaTrader5 SDK constant `mt5.ORDER_TIME_GTC` (opaque external value). -/
def ORDER_TIME_GTC : Nat := 0

/-- The request dict built by `MT5Bridge.execute` (lines 74-83). -/
structure OrderRequest where
  action : Nat
  symbol : String
  volume : ℚ
  type : Int
  deviation : Nat
  magic : Nat
  comment : String
  type_time : Nat
  deriving DecidableEq, Repr

/-- The outcome of a venue submission.  `sendResult` is the raw value that
the terminal call `mt5.order_send` hands back (summarised by its retcode);
`rejectTimeout` is the `VenueReject(timeout)` outcome the spec demands when
a deadline is exceeded — the embedding carries it so the spec claim can be
stated against the code. -/
inductive VenueResult where
  | sendResult (retcode : Int)
  | rejectTimeout
  deriving DecidableEq, Repr

/-- `MT5Bridge.__init__(self)` (lines 69-71):

    if not mt5.initialize():
        raise ConnectionError("MT5 Terminal Not Connected")

The external terminal call is modelled by the boolean it reports
(`mt5initOk`).  A successful construction yields the (stateless) bridge. -/
def MT5Bridge.init (mt5initOk : Bool) : Except PyError Unit :=
  if mt5initOk then Except.ok () else Except.error PyError.connectionError

/-- `MT5Bridge.execute(self, symbol, volume, order_type)` (lines 73-84):
builds the request dict and returns `mt5.order_send(request)` directly.
The external synchronous call is a parameter `orderSend`; to make the
blocking behaviour statable it reports, besides its `VenueResult`, the
wall-clock duration (an abstract `Nat` of time units) for which the call
blocks the event loop.  `magic16` is the externally harvested
`quantumrandom.uint16()` value (a 16-bit integer, reduced mod 2^16). -/
def MT5Bridge.execute (orderSend : OrderRequest → Nat × VenueResult)
    (magic16 : Nat) (symbol : String) (volume : ℚ) (order_type : Int) :
    Nat × VenueResult :=
  orderSend
    { action := TRADE_ACTION_DEAL
      symbol := symbol
      volume := volume
      type := order_type
      deviation := 10
      magic := magic16 % 2 ^ 16
      comment := "QTS v5.0 Execution"
      type_time := ORDER_TIME_GTC }

/- ======================
   MAIN EXECUTION LOOP  (class QuantumTradingSystem, Trading_Bot.py lines 109-126)
   ====================== -/

/-- The attribute names defined on the class `QuantumTradingSystem`
(lines 109-126): exactly its two methods. -/
def QuantumTradingSystem.classAttrs : List String :=
  ["__init__", "run"]

/-- The instance attribute names assigned by
`QuantumTradingSystem.__init__` (lines 111-115). -/
def QuantumTradingSystem.instanceAttrs : List String :=
  ["entropy", "fix", "mt5", "risk"]

/-- Python attribute lookup `getattr(self, name)` on a
`QuantumTradingSystem` object: the instance dict, then the class dict,
else `AttributeError`. -/
def QuantumTradingSystem.getattrSelf (name : String) : Except PyError Unit :=
  if name ∈ QuantumTradingSystem.instanceAttrs ∨ name ∈ QuantumTradingSystem.classAttrs then
    Except.ok ()
  else
    Except.error PyError.attributeError

/-- The `except Exception as e` handler of `QuantumTradingSystem.run`
(lines 125-126): it evaluates `self._emergency_shutdown(e)`, which first
resolves the attribute `_emergency_shutdown` on `self`.  When the lookup
fails the `AttributeError` escapes the handler (there is nothing around it
to catch it); when it succeeds the named method would run (`Except.ok`). -/
def QuantumTradingSystem.runExceptionHandler (_e : PyError) : Except PyError Unit :=
  match QuantumTradingSystem.getattrSelf "_emergency_shutdown" with
  | Except.error err => Except.error err
  | Except.ok _ => Except.ok ()

/-- One iteration of the `while True` loop of `QuantumTradingSystem.run`
(lines 121-126): if the try-block body completes the loop continues with
`Except.ok`; if it raises `e` the handler runs.  An error value escaping
the iteration terminates the loop by propagation. -/
def QuantumTradingSystem.runLoopIter (body : Except PyError Unit) : Except PyError Unit :=
  match body with
  | Except.ok _ => Except.ok ()
  | Except.error e => QuantumTradingSystem.runExceptionHandler e

/- ======================
   Helper lemmas
   ====================== -/

/-- Unfolding `calculate` when the denominator is nonzero. -/
theorem calculate_of_ne (m p b : ℚ) (hb : b ≠ 0) :
    (AdaptiveKelly.mk m).calculate p b =
      (Except.ok (max (1/100) ((p * (b + 1) - 1) / b * m)), AdaptiveKelly.mk m) := by
  simp [AdaptiveKelly.calculate, hb]

/-- Casting an exponent-aligned significand back to the rational value. -/
theorem F64.aligned_cast (a : F64) (emin : ℤ) (h : emin ≤ a.e) :
    ((a.m * 2 ^ (a.e - emin).toNat : ℤ) : ℚ) = a.toRat / (2:ℚ) ^ emin := by
  unfold F64.toRat
  have h2 : ((a.e - emin).toNat : ℤ) = a.e - emin := Int.toNat_of_nonneg (sub_nonneg.mpr h)
  push_cast
  rw [← zpow_natCast (2:ℚ) (a.e - emin).toNat, h2,
    zpow_sub₀ (by norm_num : (2:ℚ) ≠ 0)]
  ring

/-- The binary64 comparison decides the order of the denoted rationals. -/
theorem F64.lt_iff (a b : F64) : F64.lt a b = true ↔ a.toRat < b.toRat := by
  unfold F64.lt
  rw [decide_eq_true_eq, ← @Int.cast_lt ℚ _ _ _,
    F64.aligned_cast a (min a.e b.e) (min_le_left _ _),
    F64.aligned_cast b (min a.e b.e) (min_le_right _ _),
    div_lt_div_iff₀ (zpow_pos (by norm_num) _) (zpow_pos (by norm_num) _),
    mul_lt_mul_right (zpow_pos (by norm_num) _)]

/-- Python `max` never goes below its first argument. -/
theorem F64.le_toRat_pymax (a b : F64) : a.toRat ≤ (F64.pymax a b).toRat := by
  unfold F64.pymax
  by_cases h : F64.lt a b = true
  · rw [if_pos h]
    exact le_of_lt ((F64.lt_iff a b).mp h)
  · rw [if_neg h]


/- ======================
   Claim theorems
   ====================== -/

/-- Claim C1 counterexample: at the valid inputs `p = 1.0` (inside [0,1]),
`b = 0.1` (the positive double `7205759403792794 * 2^-56`), multiplier
aggressive (1.0), the program's double arithmetic returns
`4503599627370500 * 2^-52` = 1.0000000000000009, strictly above 1.0 —
the claimed ceiling at full equity fails. -/
theorem C1_counterexample :
    0 ≤ F64.toRat ⟨1, 0⟩ ∧ F64.toRat ⟨1, 0⟩ ≤ 1 ∧
    0 < F64.toRat ⟨7205759403792794, -56⟩ ∧
    AdaptiveKelly.calculateFP ⟨1, 0⟩ ⟨1, 0⟩ ⟨7205759403792794, -56⟩ =
      Except.ok ⟨4503599627370500, -52⟩ ∧
    1 < F64.toRat ⟨4503599627370500, -52⟩ := by
  refine ⟨by norm_num [F64.toRat], by norm_num [F64.toRat], by norm_num [F64.toRat],
    rfl, by norm_num [F64.toRat]⟩

/-- Claim C1 (amended): for every win probability `p ∈ [0,1]`, every
win/loss ratio `b > 0`, and every preset multiplier (conservative = 0.25,
moderate = 0.5, aggressive = 1.0), the sizing operation under the
program's double arithmetic returns a value of at least 0.01 — never zero
or negative exposure.  The upper bound at 1.0 does not hold: rounding can
push the result one ulp above full equity (see the counterexample). -/
theorem C1_calculate_floor (mult win_prob wl : F64)
    (hm : mult = ⟨1, -2⟩ ∨ mult = ⟨1, -1⟩ ∨ mult = ⟨1, 0⟩)
    (hp0 : 0 ≤ win_prob.toRat) (hp1 : win_prob.toRat ≤ 1) (hb : 0 < wl.toRat) :
    ∃ v : F64, AdaptiveKelly.calculateFP mult win_prob wl = Except.ok v ∧
      1/100 ≤ v.toRat := by
  have hwl : wl.m ≠ 0 := by
    intro h
    simp [F64.toRat, h] at hb
  refine ⟨F64.pymax float001
    (F64.mul (F64.div (F64.sub (F64.mul win_prob (F64.add wl ⟨1, 0⟩)) ⟨1, 0⟩) wl) mult),
    ?_, ?_⟩
  · simp [AdaptiveKelly.calculateFP, hwl]
  · calc (1:ℚ)/100 ≤ float001.toRat := by norm_num [F64.toRat, float001]
      _ ≤ _ := F64.le_toRat_pymax _ _

/-- Witness for C1 (amended) at `p = 1.0`, `b = 2.0`, aggressive. -/
theorem C1_calculate_floor_witness :
    ∃ v : F64, AdaptiveKelly.calculateFP ⟨1, 0⟩ ⟨1, 0⟩ ⟨1, 1⟩ = Except.ok v ∧
      1/100 ≤ v.toRat :=
  C1_calculate_floor ⟨1, 0⟩ ⟨1, 0⟩ ⟨1, 1⟩ (Or.inr (Or.inr rfl))
    (by norm_num [F64.toRat]) (by norm_num [F64.toRat]) (by norm_num [F64.toRat])

/-- Claim C2 counterexample: at `p = 2` (outside `[0,1]`) and `b = 1` the
code raises nothing and happily returns a sizing result (`Except.ok 3`),
so `calculate` does not fail with `InvalidInputError` on invalid input;
indeed the embedded code has no such error at all. -/
theorem C2_counterexample :
    (1 : ℚ) < 2 ∧
    ((AdaptiveKelly.init "aggressive").calculate 2 1).1 = Except.ok 3 := by
  constructor
  · norm_num
  · have h : AdaptiveKelly.init "aggressive" = AdaptiveKelly.mk 1 := rfl
    rw [h, calculate_of_ne 1 2 1 one_ne_zero]
    norm_num

/-- Claim C2 (amended): `calculate` performs no input validation.  For any
`b ≠ 0` it returns `Except.ok (max 0.01 (((p*(b+1)-1)/b) * m))` even when
`p` lies outside `[0,1]` or `b < 0`; only `b = 0` fails, and then with the
Python `ZeroDivisionError`, not an `InvalidInputError`. -/
theorem C2_no_validation (m p b : ℚ) :
    (b ≠ 0 → (AdaptiveKelly.mk m).calculate p b =
      (Except.ok (max (1/100) ((p * (b + 1) - 1) / b * m)), AdaptiveKelly.mk m)) ∧
    (b = 0 → (AdaptiveKelly.mk m).calculate p b =
      (Except.error PyError.zeroDivisionError, AdaptiveKelly.mk m)) := by
  constructor
  · intro hb
    exact calculate_of_ne m p b hb
  · intro hb
    simp [AdaptiveKelly.calculate, hb]

/-- Witness for C2 (amended) at `p = 2, b = 1` and at `b = 0`. -/
theorem C2_no_validation_witness :
    (AdaptiveKelly.mk 1).calculate 2 1 =
      (Except.ok (max (1/100) ((2 * (1 + 1) - 1) / 1 * 1)), AdaptiveKelly.mk 1) ∧
    (AdaptiveKelly.mk 1).calculate 2 0 =
      (Except.error PyError.zeroDivisionError, AdaptiveKelly.mk 1) :=
  ⟨(C2_no_validation 1 2 1).1 one_ne_zero, (C2_no_validation 1 2 0).2 rfl⟩

/-- Claim C3: on valid inputs the code computes exactly the Kelly fraction
`f = (p*(b+1) - 1) / b`, scales it by the configured multiplier — with the
presets mapping conservative to 0.25, moderate to 0.5 and aggressive to
1.0 — and only then applies the floor bound. -/
theorem C3_kelly_formula (p b : ℚ) (hp0 : 0 ≤ p) (hp1 : p ≤ 1) (hb : 0 < b) :
    (∀ m : ℚ, ((AdaptiveKelly.mk m).calculate p b).1 =
      Except.ok (max (1/100) ((p * (b + 1) - 1) / b * m))) ∧
    (AdaptiveKelly.init "conservative").multiplier = 1/4 ∧
    (AdaptiveKelly.init "moderate").multiplier = 1/2 ∧
    (AdaptiveKelly.init "aggressive").multiplier = 1 := by
  refine ⟨fun m => ?_, rfl, rfl, rfl⟩
  rw [calculate_of_ne m p b (ne_of_gt hb)]

/-- Witness for C3 at `p = 1/2`, `b = 1`, `m = 1`. -/
theorem C3_kelly_formula_witness :
    ((AdaptiveKelly.mk 1).calculate (1/2) 1).1 =
      Except.ok (max (1/100) ((1/2 * (1 + 1) - 1) / 1 * 1)) :=
  (C3_kelly_formula (1/2) 1 (by norm_num) (by norm_num) (by norm_num)).1 1

/-- Claim C4 counterexample: at `p = 0.6` (the double
`5404319552844595 * 2^-53`), `b = 2`, multiplier aggressive (1.0), the
program returns the double `7205759403792792 * 2^-54` =
0.3999999999999999, which is not exactly 0.40: the product `0.6 * 3`
already rounds to 1.7999999999999998. -/
theorem C4_counterexample :
    AdaptiveKelly.calculateFP ⟨1, 0⟩ ⟨5404319552844595, -53⟩ ⟨1, 1⟩ =
      Except.ok ⟨7205759403792792, -54⟩ ∧
    F64.toRat ⟨7205759403792792, -54⟩ ≠ 2/5 :=
  ⟨rfl, by norm_num [F64.toRat]⟩

/-- Claim C4 (amended): the scenario `p = 0.6`, `b = 2`, equity 100000,
profile aggressive yields, under the program's double arithmetic, the
sized fraction 0.3999999999999999 (exactly `7205759403792792 * 2^-54`),
strictly below 0.40, and hence a notional strictly below 40000. -/
theorem C4_scenario_float :
    AdaptiveKelly.calculateFP ⟨1, 0⟩ ⟨5404319552844595, -53⟩ ⟨1, 1⟩ =
      Except.ok ⟨7205759403792792, -54⟩ ∧
    F64.toRat ⟨7205759403792792, -54⟩ < 2/5 ∧
    F64.toRat ⟨7205759403792792, -54⟩ * 100000 < 40000 :=
  ⟨rfl, by norm_num [F64.toRat], by norm_num [F64.toRat]⟩

/-- Claim C5: `calculate` is pure — it mutates no state (the object state
after the call equals the state before), and two calls with equal inputs
(equal multiplier, win probability and win/loss ratio) return equal
results. -/
theorem C5_calculate_pure (k k2 : AdaptiveKelly) (p b : ℚ)
    (h : k.multiplier = k2.multiplier) :
    (k.calculate p b).2 = k ∧ (k.calculate p b).1 = (k2.calculate p b).1 := by
  obtain ⟨m⟩ := k
  obtain ⟨m2⟩ := k2
  simp only [AdaptiveKelly.mk.injEq] at h ⊢
  subst h
  constructor
  · unfold AdaptiveKelly.calculate
    split <;> rfl
  · rfl

/-- Witness for C5 at multiplier `1/2`, `p = 1`, `b = 1`. -/
theorem C5_calculate_pure_witness :
    ((AdaptiveKelly.mk (1/2)).calculate 1 1).2 = AdaptiveKelly.mk (1/2) ∧
    ((AdaptiveKelly.mk (1/2)).calculate 1 1).1 =
      ((AdaptiveKelly.mk (1/2)).calculate 1 1).1 :=
  C5_calculate_pure (AdaptiveKelly.mk (1/2)) (AdaptiveKelly.mk (1/2)) 1 1 rfl

/-- Claim C6: `FIXEngine` defines no `_encrypt` (and sets none on the
instance), so on a logon admin message (header tag 35 = "A") the handler
sets field 553 and then raises `AttributeError` while resolving
`self._encrypt` on line 61 — field 554 (the encrypted password) is never
written, refuting the claim that exactly the two fields are forwarded.
On a non-logon admin message the handler leaves the message entirely
unchanged, as the claim says. -/
theorem C6_toAdmin_raises :
    "_encrypt" ∉ FIXEngine.classAttrs ∧
    "_encrypt" ∉ FIXEngine.instanceAttrs ∧
    (FIXEngine.toAdmin (fun s => s) "alice" "secret"
      (FIXMessage.mk [(35, "A")] [(11, "X")])).1 = Except.error PyError.attributeError ∧
    ((FIXEngine.toAdmin (fun s => s) "alice" "secret"
      (FIXMessage.mk [(35, "A")] [(11, "X")])).2).fields.getField 553 = some "alice" ∧
    ((FIXEngine.toAdmin (fun s => s) "alice" "secret"
      (FIXMessage.mk [(35, "A")] [(11, "X")])).2).fields.getField 554 = none ∧
    FIXEngine.toAdmin (fun s => s) "alice" "secret" (FIXMessage.mk [(35, "0")] [(11, "X")])
      = (Except.ok (), FIXMessage.mk [(35, "0")] [(11, "X")]) := by
  refine ⟨by decide, by decide, rfl, rfl, rfl, rfl⟩

/-- Claim C7: constructing the MT5 bridge raises a connect error exactly
when the terminal transport is unavailable: if `mt5.initialize()` reports
failure a `ConnectionError` is raised, and if it succeeds construction
completes with no error. -/
theorem C7_mt5_connect (mt5initOk : Bool) :
    (mt5initOk = false → MT5Bridge.init mt5initOk = Except.error PyError.connectionError) ∧
    (mt5initOk = true → MT5Bridge.init mt5initOk = Except.ok ()) := by
  cases mt5initOk <;> simp [MT5Bridge.init]

/-- Witness for C7 at both transport outcomes. -/
theorem C7_mt5_connect_witness :
    MT5Bridge.init false = Except.error PyError.connectionError ∧
    MT5Bridge.init true = Except.ok () :=
  ⟨(C7_mt5_connect false).1 rfl, (C7_mt5_connect true).2 rfl⟩

/-- Claim C8 counterexample: there is no bound such that every submission
through `MT5Bridge.execute` either returns within the bound or yields
`VenueReject(timeout)`.  For any candidate bound, a terminal call that
blocks one unit longer and then answers normally is forwarded unchanged:
the call blocks past the bound and the result is the raw send result, not
a timeout reject — the code wraps the synchronous call in no deadline. -/
theorem C8_counterexample :
    ¬ ∃ bound : Nat, ∀ send : OrderRequest → Nat × VenueResult,
      (MT5Bridge.execute send 0 "EURUSD" 1 0).1 ≤ bound ∨
      (MT5Bridge.execute send 0 "EURUSD" 1 0).2 = VenueResult.rejectTimeout := by
  rintro ⟨bound, h⟩
  rcases h (fun _ => (bound + 1, VenueResult.sendResult 0)) with h1 | h2
  · simp only [MT5Bridge.execute] at h1
    omega
  · simp only [MT5Bridge.execute] at h2
    exact VenueResult.noConfusion h2

/-- Claim C8 (amended): `MT5Bridge.execute` forwards the submission to the
synchronous terminal call with no deadline at all: it blocks the event
loop exactly as long as `mt5.order_send` does and returns that call's
result unchanged — in particular a timeout reject can only arise from the
terminal itself, never from a wrapper. -/
theorem C8_execute_unbounded (send : OrderRequest → Nat × VenueResult)
    (magic16 : Nat) (symbol : String) (volume : ℚ) (order_type : Int) :
    MT5Bridge.execute send magic16 symbol volume order_type =
      send ⟨TRADE_ACTION_DEAL, symbol, volume, order_type, 10, magic16 % 2 ^ 16,
        "QTS v5.0 Execution", ORDER_TIME_GTC⟩ :=
  rfl

/-- Claim C9: `AdaptiveKelly.__init__` accepts every profile string; a
string that is none of the three presets silently yields the moderate
multiplier 0.5, indistinguishable from an explicit "moderate". -/
theorem C9_unknown_profile (profile : String)
    (h1 : profile ≠ "conservative") (h2 : profile ≠ "moderate")
    (h3 : profile ≠ "aggressive") :
    AdaptiveKelly.init profile = AdaptiveKelly.init "moderate" ∧
    (AdaptiveKelly.init profile).multiplier = 1/2 := by
  have h : AdaptiveKelly.init profile = AdaptiveKelly.mk (1/2) := by
    simp [AdaptiveKelly.init, dictGet, RISK_PROFILES, Ne.symm h1, Ne.symm h2, Ne.symm h3]
  exact ⟨by rw [h]; rfl, by rw [h]⟩

/-- Witness for C9 at the unknown profile string "turbo". -/
theorem C9_unknown_profile_witness :
    AdaptiveKelly.init "turbo" = AdaptiveKelly.init "moderate" ∧
    (AdaptiveKelly.init "turbo").multiplier = 1/2 :=
  C9_unknown_profile "turbo" (by decide) (by decide) (by decide)

/-- Claim C10: the catch-all handler of `QuantumTradingSystem.run` calls
`self._emergency_shutdown`, an attribute neither assigned in `__init__`
nor defined on the class, so for every exception reaching the handler the
attribute lookup raises `AttributeError` and the loop iteration ends by
propagating that error — no shutdown code ever runs. -/
theorem C10_emergency_shutdown_missing (e : PyError) :
    QuantumTradingSystem.runLoopIter (Except.error e) =
      Except.error PyError.attributeError ∧
    "_emergency_shutdown" ∉ QuantumTradingSystem.classAttrs ∧
    "_emergency_shutdown" ∉ QuantumTradingSystem.instanceAttrs :=
  ⟨rfl, by decide, by decide⟩
